import Mathlib

/-!
Verification of the system-check-cli maintenance tool (src/unnamed/part_000,
the complete variant of the program, whose line numbers the analysis cites).

The program is sequential glue over external OS commands.  We embed it
shallowly: external effects (process spawning, file appends, directory reads,
file removals, the interactive prompt) are inputs supplied by an environment,
and each JavaScript function is translated into a Lean function from that
environment (plus its explicit arguments) to the values and event traces it
produces.  Errors (rejected promises) are modelled with Except, the error
payload being the JavaScript Error's message string.
-/

namespace SystemCheck

/-! ## Log model (part_000 lines 23-27)

A log call records the message and level passed to writeLog.  Timestamps are
threaded as opaque strings where a claim needs them. -/

inductive LogLevel where
  | INFO
  | WARN
  | ERROR
deriving DecidableEq, Repr

def LogLevel.str : LogLevel → String
  | .INFO => "INFO"
  | .WARN => "WARN"
  | .ERROR => "ERROR"

structure LogCall where
  message : String
  level : LogLevel
deriving DecidableEq, Repr

/-- Line 25: the text appended for one writeLog call, with the
timestamp, the bracketed level and os.EOL rendered explicitly. -/
def logLine (timestamp : String) (level : LogLevel) (message : String) (eol : String) : String :=
  timestamp ++ " [" ++ level.str ++ "] " ++ message ++ eol

/-- Lines 23-27: writeLog builds the entry and awaits fs.appendFile.  The
append's outcome is supplied by the environment as an Except value; the code
has no try/catch, so an append failure makes writeLog's promise reject with
that same error.  On success we return the appended entry text. -/
def writeLog (append : Except String Unit) (timestamp : String) (message : String)
    (level : LogLevel) (eol : String) : Except String String :=
  match append with
  | .ok _ => .ok (logLine timestamp level message eol)
  | .error e => .error e

/-! ## Process invoker (part_000 lines 29-55) -/

/-- The observable fate of the spawned child process: either the spawn itself
failed (the child's error event fired first, carrying the spawn error's
message), or the process closed with an exit code (null when killed by a
signal) after the stdout/stderr streams accumulated the given text. -/
inductive SpawnOutcome where
  | spawnError (err : String)
  | exited (code : Option Nat) (stdoutText stderrText : String)
deriving DecidableEq, Repr

/-- How the JS template renders the close event's code (a number, or null). -/
def exitCodeStr : Option Nat → String
  | some c => toString c
  | none => "null"

/-- Lines 43-53: on close with code 0 resolve with the accumulated texts; on
any other code reject with the formatted failure message; on a spawn error
reject with the underlying error unchanged. -/
def runCommand (outcome : SpawnOutcome) : Except String (String × String) :=
  match outcome with
  | .spawnError err => .error err
  | .exited code stdoutText stderrText =>
    if code = some 0 then .ok (stdoutText, stderrText)
    else .error ("Command failed with exit code " ++ exitCodeStr code ++ "\n" ++ stderrText)

/-! ## Task wrapper (part_000 lines 57-73) -/

/-- What the wrapped zero-argument operation did: completed normally, possibly
returning an object whose message field is shown (JS checks
result && result.message, so an absent object or an empty message string is
falsy and shows the bare title), or threw with the given error message. -/
inductive TaskResult where
  | ok (message : Option String)
  | thrown (errMessage : String)
deriving DecidableEq, Repr

/-- Terminal events the wrapper emits (chalk colouring dropped: we model the
text content only). -/
inductive TermEvent where
  | spinnerStart (text : String)
  | spinnerSucceed (text : String)
  | spinnerFail (text : String)
  | consoleError (text : String)
  | consoleLog (text : String)
deriving DecidableEq, Repr

/-- Replace every newline character by a newline followed by two spaces.
This is the global regex replace on line 69; since the pattern is a single
character, per-character replacement is exactly the JS semantics. -/
def indentChars : List Char → List Char
  | [] => []
  | c :: rest =>
    if c = '\n' then '\n' :: ' ' :: ' ' :: indentChars rest
    else c :: indentChars rest

/-- Line 69: two leading spaces, and every newline of the error message gets
two spaces after it. -/
def indentedErrorText (errMessage : String) : String :=
  "  " ++ String.mk (indentChars errMessage.toList)

/-- Lines 57-73.  The argument append is the environment's outcome for the
single fs.appendFile performed by the writeLog call on the failure path (the
success path performs no writeLog).  Result: terminal events, log calls made,
and the returned boolean — or a rejection, which happens exactly when the
failure-path writeLog's append rejects, since that await is not guarded. -/
def runTask (append : Except String Unit) (title : String) (task : TaskResult) :
    Except String (List TermEvent × List LogCall × Bool) :=
  match task with
  | .ok message? =>
    let succText :=
      match message? with
      | some m => if m.isEmpty then title else title ++ " - " ++ m
      | none => title
    .ok ([.spinnerStart title, .spinnerSucceed succText], [], true)
  | .thrown errMessage =>
    match append with
    | .ok _ =>
      .ok ([.spinnerStart title, .spinnerFail title, .consoleError (indentedErrorText errMessage)],
           [⟨title ++ " failed: " ++ errMessage, .ERROR⟩], false)
    | .error e => .error e

/-! ## Task catalog and orchestrator (part_000 lines 262-312)

This model works at the granularity of log entries, task outcomes and the
process exit code.  Terminal output is dropped here, and file appends are
taken to succeed (the fallible-append behaviour of writeLog and runTask is
analysed by the models above; an append failure inside the loop is one of the
"unhandled errors" the top-level catch turns into exit status 1, which this
model represents through an entry run ending in an error). -/

/-- One entry of the tasks object literal (lines 268-277): key, display name,
default-checked flag. -/
structure CatalogEntry where
  key : String
  name : String
  checked : Bool
deriving DecidableEq, Repr

/-- Lines 268-277, in declaration order. -/
def catalog : List CatalogEntry :=
  [⟨"hwInfo", "Gather Hardware & OS Information", true⟩,
   ⟨"winUpdate", "Check for Windows Updates", true⟩,
   ⟨"winget", "Update Winget Software", true⟩,
   ⟨"choco", "Update Chocolatey Software", true⟩,
   ⟨"dism", "Check DISM Health", true⟩,
   ⟨"sfc", "Run System File Checker (SFC)", true⟩,
   ⟨"cleanup", "Clean Temporary Files", true⟩,
   ⟨"optimize", "Optimize System Drive", false⟩]

/-- The truthiness test tasks[taskKey] on line 305. -/
def isCatalogKey (k : String) : Bool :=
  (catalog.find? (fun e => e.key = k)).isSome

/-- Environment of one program run, as far as the orchestrator can observe it:
the silent flag, what the interactive prompt would return, whether the
privilege probe (net session) exits 0, and for each catalog key what running
that entry's function does — the log calls it makes, then either the boolean
it returns or the message of the error it throws. -/
structure OrchEnv where
  silent : Bool
  promptSelection : List String
  adminOk : Bool
  entryRun : String → List LogCall × Except String Bool

/-- Lines 279-295: tasksToRun is Object.keys(tasks), i.e. every catalog key in
declaration order, replaced by the prompt's selection when not silent. -/
def selectedTasks (env : OrchEnv) : List String :=
  if env.silent then catalog.map (fun e => e.key) else env.promptSelection

/-- Lines 304-308: run each selected key's task in order, skipping keys not in
the catalog, awaiting each before the next.  Returns the log calls made, the
(key, returned boolean) pairs of the entries that returned, and the message of
the first error thrown, if any — a thrown error stops the loop there. -/
def runLoop (env : OrchEnv) : List String → List LogCall × List (String × Bool) × Option String
  | [] => ([], [], none)
  | k :: ks =>
    if isCatalogKey k then
      match env.entryRun k with
      | (logs, .error e) => (logs, [], some e)
      | (logs, .ok b) =>
        let rest := runLoop env ks
        (logs ++ rest.1, (k, b) :: rest.2.1, rest.2.2)
    else runLoop env ks

def scriptStartedLog : LogCall := ⟨"Script started.", .INFO⟩

/-- Line 81: the INFO entry checkAdmin writes when net session exits 0. -/
def adminOkLog : LogCall := ⟨"Running as Administrator: OK", .INFO⟩

/-- Line 86: the ERROR entry checkAdmin writes before process.exit(1). -/
def adminFailLog : LogCall := ⟨"ERROR: Script not running as Administrator.", .ERROR⟩

/-- Lines 314-318: the top-level catch logs the escaped error and exits 1. -/
def criticalLog (e : String) : LogCall := ⟨"Critical script error: " ++ e, .ERROR⟩

/-- Lines 262-318: main plus the top-level catch and Node's process exit.
Returns the full sequence of log calls, the recorded task outcomes, and the
process exit status.  Structure: writeLog Script started; checkAdmin (lines
76-89, exit 1 on failure); selection; empty-selection early return; the task
loop; normal completion exits 0, and an error escaping the loop is caught at
the top level, logged, and turns into exit 1. -/
def mainModel (env : OrchEnv) : List LogCall × List (String × Bool) × Nat :=
  if env.adminOk then
    if (selectedTasks env).isEmpty then ([scriptStartedLog, adminOkLog], [], 0)
    else
      match runLoop env (selectedTasks env) with
      | (logs, outs, none) => ([scriptStartedLog, adminOkLog] ++ logs, outs, 0)
      | (logs, outs, some e) => ([scriptStartedLog, adminOkLog] ++ logs ++ [criticalLog e], outs, 1)
  else
    ([scriptStartedLog, adminFailLog], [], 1)

/-! ## Temporary-file cleanup (part_000 lines 152-170, log file from line 21)

Here we model the filesystem explicitly, because the claims are about which
paths the sweep touches.  A path is a (directory, basename) pair — path.join
of a directory and an entry name.  fs.readdir returns the basenames of the
files the model currently holds under the directory (or fails when the
environment says that directory is inaccessible); fs.rm removes the pair
(or fails with the environment's message, which the catch handler logs).
Log appends are taken to succeed; appendFile opens with the create flag, so a
writeLog call makes the log file exist (line 21: the log file lives directly
in os.tmpdir, its basename embedding the start timestamp). -/

/-- Existing files, as (directory, basename) pairs. -/
abbrev FileSys := List (String × String)

structure CleanupEnv where
  tmpdir : String
  /-- Basename of this run's log file, SystemMaintenance-(start time).log. -/
  logName : String
  /-- some message: fs.readdir of this directory rejects with that message. -/
  readdirFail : String → Option String
  /-- some message: fs.rm of this (directory, basename) rejects with that message. -/
  rmFail : String → String → Option String

/-- Line 21: the log file path, as a (directory, basename) pair. -/
def logFilePair (env : CleanupEnv) : String × String := (env.tmpdir, env.logName)

/-- Display form of a path, for log messages (path.join with the Windows
separator). -/
def pathStr (dir name : String) : String := dir ++ "\\" ++ name

/-- State threaded through the sweep: the filesystem and the log calls made
so far. -/
abbrev SweepState := FileSys × List LogCall

/-- A writeLog call inside the cleanup model: the append succeeds, creating
the log file if it does not exist, and the call is recorded. -/
def writeLogFs (env : CleanupEnv) (st : SweepState) (message : String) (level : LogLevel) :
    SweepState :=
  (if logFilePair env ∈ st.1 then st.1 else logFilePair env :: st.1,
   st.2 ++ [⟨message, level⟩])

/-- Lines 159-164: the inner loop.  For each enumerated basename, await
fs.rm(path.join(tempPath, file), recursive and force) with a catch handler
that logs a WARN naming the path; a successful removal deletes the file. -/
def rmLoop (env : CleanupEnv) (dir : String) : List String → SweepState → SweepState
  | [], st => st
  | f :: rest, st =>
    match env.rmFail dir f with
    | none => rmLoop env dir rest (st.1.erase (dir, f), st.2)
    | some e =>
      rmLoop env dir rest
        (writeLogFs env st ("Could not delete " ++ pathStr dir f ++ ": " ++ e) .WARN)

/-- Lines 156-167: one tempPath.  Log Cleaning folder, enumerate, sweep; if
the enumeration rejects, the catch logs a WARN for the path and moves on.
Also returns the list of paths whose removal was attempted. -/
def cleanupDir (env : CleanupEnv) (dir : String) (st : SweepState) :
    SweepState × List (String × String) :=
  let st1 := writeLogFs env st ("Cleaning folder: " ++ dir) .INFO
  match env.readdirFail dir with
  | some e =>
    (writeLogFs env st1 ("Could not access temp path " ++ dir ++ ": " ++ e) .WARN, [])
  | none =>
    let files := (st1.1.filter (fun p => p.1 = dir)).map (fun p => p.2)
    (rmLoop env dir files st1, files.map (fun f => (dir, f)))

/-- Line 154: the two directories swept. -/
def tempPaths (env : CleanupEnv) : List String := [env.tmpdir, "C:\\Windows\\Temp"]

/-- Lines 152-170: runTempFileCleanup is runTask applied to the sweep over
tempPaths.  Every fallible step inside the operation (fs.readdir, fs.rm) is
caught inside it, so the operation completes normally for every environment
and the task wrapper's success branch returns true (runTask, lines 60-66).
Result: final state, all attempted removals, and the wrapper's boolean. -/
def runTempFileCleanup (env : CleanupEnv) (st : SweepState) :
    SweepState × List (String × String) × Bool :=
  let r1 := cleanupDir env env.tmpdir st
  let r2 := cleanupDir env "C:\\Windows\\Temp" r1.1
  (r2.1, r1.2 ++ r2.2, true)

/-! ## Log line format and parsing (for the round-trip claim)

The parser recovers timestamp, level and message from one line of the log
file: the timestamp is everything before the first space, then a bracketed
level, then a space, then the message is the rest of the line. -/

/-- Parse one line (without its terminator), as characters: timestamp up to
the first space, then a bracketed level, a space, and the message. -/
def parseLogChars (l : List Char) : Option (List Char × List Char × List Char) :=
  match l.dropWhile (fun c => c ≠ ' ') with
  | c1 :: c2 :: r =>
    if c1 = ' ' ∧ c2 = '[' then
      match r.dropWhile (fun c => c ≠ ']') with
      | d1 :: d2 :: msg =>
        if d1 = ']' ∧ d2 = ' ' then
          some (l.takeWhile (fun c => c ≠ ' '), r.takeWhile (fun c => c ≠ ']'), msg)
        else none
      | _ => none
    else none
  | _ => none

/-- Parse one log line into (timestamp, level text, message text). -/
def parseLogLine (line : String) : Option (String × String × String) :=
  (parseLogChars line.toList).map (fun t => (String.mk t.1, String.mk t.2.1, String.mk t.2.2))

/-- The lines of a piece of text, split at newline characters. -/
def splitLines (s : String) : List String :=
  s.toList.splitOn '\n' |>.map String.mk

/-- Mapping the level text printed between brackets back to the level. -/
def parseLevel (s : String) : Option LogLevel :=
  if s = "INFO" then some .INFO
  else if s = "WARN" then some .WARN
  else if s = "ERROR" then some .ERROR
  else none

/-- The boolean an entry's run returns, for entries that return (the error
case never arises under the hypotheses where this is used). -/
def entryBool (env : OrchEnv) (k : String) : Bool :=
  match (env.entryRun k).2 with
  | .ok b => b
  | .error _ => false

/-! ## Concrete environments used by witnesses and counterexamples -/

/-- Silent run, privilege probe passes, every task's function logs nothing
and returns true. -/
def envSilentAllOk : OrchEnv :=
  { silent := true, promptSelection := [], adminOk := true,
    entryRun := fun _ => ([], .ok true) }

/-- Silent run in which the privilege probe fails. -/
def envGateFail : OrchEnv :=
  { silent := true, promptSelection := [], adminOk := false,
    entryRun := fun _ => ([], .ok true) }

/-- Silent run in which every task fails: each entry's function makes one
ERROR log call and returns false (the wrapper's absorbed-failure outcome). -/
def envAllFail : OrchEnv :=
  { silent := true, promptSelection := [], adminOk := true,
    entryRun := fun k => ([⟨k ++ " failed: boom", .ERROR⟩], .ok false) }

/-- Interactive run whose prompt selects three tasks; the first of them
fails (returns false), the others succeed. -/
def envInteractive : OrchEnv :=
  { silent := false, promptSelection := ["winget", "dism", "sfc"], adminOk := true,
    entryRun := fun k => ([], .ok (k ≠ "winget")) }

/-- Cleanup environment: tmpdir T holds the log file plus entries a, b, c of
which a and c cannot be removed; the second swept directory is inaccessible. -/
def envCleanup : CleanupEnv :=
  { tmpdir := "T", logName := "SystemMaintenance-2026-01-01T00-00-00.000Z.log",
    readdirFail := fun d => if d = "C:\\Windows\\Temp" then some "EPERM" else none,
    rmFail := fun d f => if d = "T" && (f = "a" || f = "c") then some "EBUSY" else none }

/-- The files present when the cleanup task starts: the active log file and
three other temp entries. -/
def envCleanupFs : FileSys :=
  [("T", "SystemMaintenance-2026-01-01T00-00-00.000Z.log"), ("T", "a"), ("T", "b"), ("T", "c")]

end SystemCheck

namespace SystemCheck

/-! ## Helper lemmas -/

theorem takeWhile_append_eq (p : Char → Bool) (xs : List Char) (y : Char) (ys : List Char)
    (hxs : ∀ c ∈ xs, p c = true) (hy : p y = false) :
    (xs ++ y :: ys).takeWhile p = xs := by
  induction xs with
  | nil => simp [List.takeWhile, hy]
  | cons a as ih =>
    have ha : p a = true := hxs a (List.mem_cons_self a as)
    simp only [List.cons_append, List.takeWhile, ha]
    exact congrArg (a :: ·) (ih (fun c hc => hxs c (List.mem_cons_of_mem a hc)))

theorem dropWhile_append_eq (p : Char → Bool) (xs : List Char) (y : Char) (ys : List Char)
    (hxs : ∀ c ∈ xs, p c = true) (hy : p y = false) :
    (xs ++ y :: ys).dropWhile p = y :: ys := by
  induction xs with
  | nil => simp [List.dropWhile, hy]
  | cons a as ih =>
    have ha : p a = true := hxs a (List.mem_cons_self a as)
    simp only [List.cons_append, List.dropWhile, ha]
    exact ih (fun c hc => hxs c (List.mem_cons_of_mem a hc))

/-- Characterisation of the orchestrator's task loop when every selected
catalog entry's run returns a boolean (no entry throws): the log trace is the
in-order concatenation of the entries' traces, the recorded outcomes pair
every selected catalog key, in order, with the boolean it returned, and no
error escapes. -/
theorem runLoop_all_ok (env : OrchEnv) (sel : List String)
    (h : ∀ k ∈ sel, isCatalogKey k = true → ((env.entryRun k).2).isOk = true) :
    runLoop env sel =
      ((sel.filter isCatalogKey).flatMap (fun k => (env.entryRun k).1),
       (sel.filter isCatalogKey).map (fun k => (k, entryBool env k)),
       none) := by
  induction sel with
  | nil => rfl
  | cons k ks ih =>
    have hks : ∀ k' ∈ ks, isCatalogKey k' = true → ((env.entryRun k').2).isOk = true :=
      fun k' hk' => h k' (List.mem_cons_of_mem k hk')
    by_cases hk : isCatalogKey k
    · match hr : env.entryRun k with
      | (logs, .error e) =>
        have := h k (List.mem_cons_self k ks) hk
        rw [hr] at this
        simp [Except.isOk, Except.toBool] at this
      | (logs, .ok b) =>
        have hb : entryBool env k = b := by unfold entryBool; rw [hr]
        simp only [runLoop, hk, if_true, hr, ih hks, List.filter_cons, List.flatMap_cons,
          List.map_cons, hb]
    · have hk' : isCatalogKey k = false := by simpa using hk
      simp only [runLoop, hk', Bool.false_eq_true, if_false, ih hks, List.filter_cons]

theorem filterMap_length_eq_filter_isSome {α β : Type} (g : α → Option β) (l : List α) :
    (l.filterMap g).length = (l.filter (fun a => (g a).isSome)).length := by
  induction l with
  | nil => rfl
  | cons a as ih =>
    cases hg : g a <;>
      simp [List.filterMap_cons, List.filter_cons, hg, ih]

/-! ## Claims -/

/-- C3 (confirmed).  The process invoker: exit code 0 resolves with the
accumulated stdout and stderr text; a nonzero exit code rejects with an error
carrying that exit code and the captured stderr text; a spawn failure rejects
with the underlying spawn error unchanged. -/
theorem runCommand_contract :
    (∀ stdoutText stderrText : String,
      runCommand (.exited (some 0) stdoutText stderrText) = .ok (stdoutText, stderrText)) ∧
    (∀ (c : Nat) (stdoutText stderrText : String), c ≠ 0 →
      runCommand (.exited (some c) stdoutText stderrText) =
        .error ("Command failed with exit code " ++ toString c ++ "\n" ++ stderrText)) ∧
    (∀ err : String, runCommand (.spawnError err) = .error err) := by
  refine ⟨fun _ _ => rfl, fun c o e hc => ?_, fun _ => rfl⟩
  simp [runCommand, Option.some.injEq, hc, exitCodeStr]

/-- Witness for C3 at concrete inputs: a command that exits 2 with stderr
text rejects with the message carrying the code and that text. -/
theorem runCommand_contract_witness :
    runCommand (.exited (some 2) "" "Access is denied.") =
      .error "Command failed with exit code 2\nAccess is denied." :=
  (runCommand_contract.2.1 2 "" "Access is denied." (by decide)).trans rfl

/-- C6 counterexample.  The structured logger does fail its caller: when the
underlying append rejects (here with a permission error), writeLog's promise
rejects with that same error instead of swallowing it — there is no catch in
writeLog and no terminal warning path at all. -/
theorem writeLog_fails_caller :
    writeLog (.error "EACCES: permission denied") "2026-01-01T00:00:00.000Z"
      "Script started." .INFO "\n" = .error "EACCES: permission denied" := rfl

/-- C6 (corrected).  writeLog propagates an append failure unchanged to its
caller and emits no warning; when the append succeeds it appends exactly one
entry in the timestamp-level-message format. -/
theorem writeLog_propagates (e timestamp message : String) (level : LogLevel) (eol : String) :
    writeLog (.error e) timestamp message level eol = .error e ∧
    writeLog (.ok ()) timestamp message level eol =
      .ok (logLine timestamp level message eol) := ⟨rfl, rfl⟩

/-- C1 counterexample.  A failure can cross the task wrapper boundary as a
raised condition: when the wrapped operation has thrown and the ERROR-entry
append inside the catch block rejects, runTask's own promise rejects with the
append error — it neither returns false nor appends the ERROR entry. -/
theorem runTask_can_raise :
    runTask (.error "ENOSPC: no space left on device") "Checking DISM Health"
      (.thrown "Command failed with exit code 1\n") =
      .error "ENOSPC: no space left on device" := rfl

/-- C1 (corrected).  Provided the ERROR log append succeeds, a failed
operation makes runTask report the failure, print the failure message with
multi-line messages indented by two spaces, append exactly one ERROR entry of
the form title failed: message, and return false without raising; only a
failure of the log append itself escapes (see the counterexample). -/
theorem runTask_failure_contract (title errMessage : String) :
    runTask (.ok ()) title (.thrown errMessage) =
      .ok ([.spinnerStart title, .spinnerFail title,
            .consoleError (indentedErrorText errMessage)],
           [⟨title ++ " failed: " ++ errMessage, .ERROR⟩], false) := rfl

/-- C7 counterexample.  On normal completion runTask writes nothing to the
log: the success branch makes no writeLog call (empty log-call list), both
with and without a result message, so no INFO entry is produced. -/
theorem runTask_success_writes_no_log :
    runTask (.ok ()) "Updating Winget Software" (.ok none) =
      .ok ([.spinnerStart "Updating Winget Software",
            .spinnerSucceed "Updating Winget Software"], [], true) ∧
    runTask (.ok ()) "Checking for Windows Updates" (.ok (some "No updates found.")) =
      .ok ([.spinnerStart "Checking for Windows Updates",
            .spinnerSucceed "Checking for Windows Updates - No updates found."], [], true) :=
  ⟨rfl, rfl⟩

/-- C7 (corrected).  On normal completion runTask reports a succeeded
indication — the optional nonempty result message appended to the title — and
returns true; it writes no log entry on the success path. -/
theorem runTask_success_contract (append : Except String Unit) (title m : String)
    (h : m.isEmpty = false) :
    runTask append title (.ok none) =
      .ok ([.spinnerStart title, .spinnerSucceed title], [], true) ∧
    runTask append title (.ok (some m)) =
      .ok ([.spinnerStart title, .spinnerSucceed (title ++ " - " ++ m)], [], true) := by
  exact ⟨rfl, by simp [runTask, h]⟩

/-- C2 (confirmed).  If the privilege gate fails, the process exits with
status 1 and the log holds exactly the startup entry and the gate's ERROR
entry — no catalog entry has run or logged, and no outcome was recorded.  If
the gate passes, the exit status is 0 for every combination of task outcomes,
as long as no error escapes the loop; an escaped error exits 1. -/
theorem gate_and_exit_status (env : OrchEnv) :
    (env.adminOk = false → mainModel env = ([scriptStartedLog, adminFailLog], [], 1)) ∧
    (env.adminOk = true → (runLoop env (selectedTasks env)).2.2 = none →
      (mainModel env).2.2 = 0) ∧
    (∀ e, env.adminOk = true → (runLoop env (selectedTasks env)).2.2 = some e →
      (mainModel env).2.2 = 1) := by
  refine ⟨fun h => by simp [mainModel, h], fun h h2 => ?_, fun e h h2 => ?_⟩
  · rcases hr : runLoop env (selectedTasks env) with ⟨logs, outs, err⟩
    rw [hr] at h2
    simp only at h2
    subst h2
    by_cases hsel : (selectedTasks env).isEmpty <;> simp [mainModel, h, hsel, hr]
  · rcases hr : runLoop env (selectedTasks env) with ⟨logs, outs, err⟩
    rw [hr] at h2
    simp only at h2
    subst h2
    by_cases hsel : (selectedTasks env).isEmpty
    · rw [List.isEmpty_iff] at hsel
      rw [hsel] at hr
      simp [runLoop] at hr
    · simp [mainModel, h, hsel, hr]

/-- Witness for C2: a run whose gate fails exits 1 with only the two gate-side
log entries; a run whose gate passes and whose every task fails still exits
with status 0. -/
theorem gate_and_exit_status_witness :
    mainModel envGateFail = ([scriptStartedLog, adminFailLog], [], 1) ∧
    (mainModel envAllFail).2.2 = 0 :=
  ⟨(gate_and_exit_status envGateFail).1 rfl,
   (gate_and_exit_status envAllFail).2.1 rfl (by decide)⟩

/-- C4 counterexample.  In silent mode the orchestrator does not restrict the
run to the default-checked subset: the optimize entry's default-selected flag
is false, yet in a silent run it is selected and its task is executed. -/
theorem silent_runs_unchecked_entry :
    ((catalog.find? (fun e => e.key = "optimize")).map (fun e => e.checked) = some false) ∧
    "optimize" ∈ selectedTasks envSilentAllOk ∧
    ("optimize", true) ∈ (mainModel envSilentAllOk).2.1 := by decide

/-- C4 (corrected).  In silent mode the orchestrator selects every catalog
entry, in catalog-declared order, regardless of the default-selected flag; in
interactive mode it runs exactly the keys the multi-select prompt returns
(whose defaults are the pre-checked flags), filtered to valid catalog keys. -/
theorem selection_by_mode (env : OrchEnv)
    (h : ∀ k ∈ selectedTasks env, isCatalogKey k = true → ((env.entryRun k).2).isOk = true) :
    (env.silent = true → selectedTasks env = catalog.map (fun e => e.key)) ∧
    (env.silent = false → selectedTasks env = env.promptSelection) ∧
    (runLoop env (selectedTasks env)).2.1.map Prod.fst =
      (selectedTasks env).filter isCatalogKey := by
  refine ⟨fun hs => by simp [selectedTasks, hs], fun hs => by simp [selectedTasks, hs], ?_⟩
  rw [runLoop_all_ok env _ h, List.map_map,
    show (Prod.fst ∘ fun k => (k, entryBool env k)) = id from rfl, List.map_id]

/-- Witness for C4's theorem: the silent selection is all eight catalog keys
in declared order; the interactive selection is exactly the prompt's list. -/
theorem selection_by_mode_witness :
    selectedTasks envSilentAllOk =
      ["hwInfo", "winUpdate", "winget", "choco", "dism", "sfc", "cleanup", "optimize"] ∧
    selectedTasks envInteractive = ["winget", "dism", "sfc"] :=
  ⟨((selection_by_mode envSilentAllOk (by decide)).1 rfl).trans (by decide),
   ((selection_by_mode envInteractive (by decide)).2.1 rfl).trans rfl⟩

/-- C5 (confirmed).  When every selected catalog entry's run returns a
boolean (the task wrapper absorbed any failure), the loop executes them
strictly one after the other: its log trace is the concatenation of the
entries' traces in selection order, every selected valid key is executed and
recorded — a false outcome from one entry never prevents the remaining
entries from running — and no error escapes the loop. -/
theorem loop_sequential_and_isolated (env : OrchEnv) (sel : List String)
    (h : ∀ k ∈ sel, isCatalogKey k = true → ((env.entryRun k).2).isOk = true) :
    (runLoop env sel).1 = (sel.filter isCatalogKey).flatMap (fun k => (env.entryRun k).1) ∧
    (runLoop env sel).2.1.map Prod.fst = sel.filter isCatalogKey ∧
    (runLoop env sel).2.2 = none := by
  rw [runLoop_all_ok env sel h]
  refine ⟨rfl, ?_, rfl⟩
  rw [List.map_map, show (Prod.fst ∘ fun k => (k, entryBool env k)) = id from rfl, List.map_id]

/-- Witness for C5: with a selection of three entries whose first fails
(returns false), all three are still executed in order. -/
theorem loop_sequential_and_isolated_witness :
    (runLoop envInteractive ["winget", "dism", "sfc"]).2.1.map Prod.fst =
      ["winget", "dism", "sfc"] ∧
    (runLoop envInteractive ["winget", "dism", "sfc"]).2.1 =
      [("winget", false), ("dism", true), ("sfc", true)] :=
  ⟨((loop_sequential_and_isolated envInteractive ["winget", "dism", "sfc"]
      (by decide)).2.1).trans (by decide),
   by decide⟩

/-- Witness for C7's theorem at a concrete title and message. -/
theorem runTask_success_contract_witness :
    runTask (.ok ()) "Checking DISM Health" (.ok (some "Done")) =
      .ok ([.spinnerStart "Checking DISM Health",
            .spinnerSucceed "Checking DISM Health - Done"], [], true) :=
  (runTask_success_contract (.ok ()) "Checking DISM Health" "Done" (by decide)).2

/-- The WARN entry the removal loop logs for an undeletable entry, if any. -/
def warnOfRm (env : CleanupEnv) (dir f : String) : Option LogCall :=
  (env.rmFail dir f).map
    (fun e => (⟨"Could not delete " ++ pathStr dir f ++ ": " ++ e, LogLevel.WARN⟩ : LogCall))

/-- The removal loop's log trace: each undeletable entry contributes exactly
its one WARN line, in enumeration order; deletable entries contribute
nothing. -/
theorem rmLoop_trace (env : CleanupEnv) (dir : String) (files : List String) :
    ∀ st : SweepState,
      (rmLoop env dir files st).2 = st.2 ++ files.filterMap (warnOfRm env dir) := by
  induction files with
  | nil => intro st; simp [rmLoop]
  | cons f rest ih =>
    intro st
    cases hf : env.rmFail dir f with
    | none => simp [rmLoop, hf, ih, warnOfRm]
    | some e => simp [rmLoop, hf, ih, warnOfRm, writeLogFs, List.append_assoc]

/-- C9 (confirmed).  The cleanup operation always reports overall success;
for a successfully enumerated directory the removal loop produces exactly one
WARN log line per undeletable entry, naming that entry's path, and no line
for deletable ones — so N entries with N−M undeletable give exactly N−M WARN
lines; and a directory whose enumeration fails yields a single WARN entry for
that path, an empty attempted-removal list, and the sweep moves on. -/
theorem cleanup_partial_failures :
    (∀ env st, (runTempFileCleanup env st).2.2 = true) ∧
    (∀ env dir files st,
      (rmLoop env dir files st).2 = st.2 ++ files.filterMap (warnOfRm env dir)) ∧
    (∀ env dir files st,
      (rmLoop env dir files st).2.length =
        st.2.length + (files.filter (fun f => (env.rmFail dir f).isSome)).length) ∧
    (∀ env dir st e, env.readdirFail dir = some e →
      cleanupDir env dir st =
        (writeLogFs env (writeLogFs env st ("Cleaning folder: " ++ dir) .INFO)
          ("Could not access temp path " ++ dir ++ ": " ++ e) .WARN, [])) := by
  refine ⟨fun _ _ => rfl, fun env dir files st => rmLoop_trace env dir files st,
    fun env dir files st => ?_, fun env dir st e he => ?_⟩
  · rw [rmLoop_trace env dir files st, List.length_append,
      filterMap_length_eq_filter_isSome (warnOfRm env dir) files]
    have : ∀ f, (warnOfRm env dir f).isSome = (env.rmFail dir f).isSome := by
      intro f; unfold warnOfRm; cases env.rmFail dir f <;> rfl
    simp only [this]
  · simp [cleanupDir, he]

/-- Witness for C9: in a temp directory holding entries a, b, c of which a
and c cannot be removed (a simulated busy/permission error), the loop logs
exactly two WARN lines, one naming each undeletable path; the inaccessible
second directory produces no attempts; and the whole operation still reports
success. -/
theorem cleanup_partial_failures_witness :
    (runTempFileCleanup envCleanup (envCleanupFs, [])).2.2 = true ∧
    (rmLoop envCleanup "T" ["a", "b", "c"] (envCleanupFs, [])).2 =
      [⟨"Could not delete T\\a: EBUSY", .WARN⟩, ⟨"Could not delete T\\c: EBUSY", .WARN⟩] ∧
    (rmLoop envCleanup "T" ["a", "b", "c"] (envCleanupFs, [])).2.length = 2 ∧
    (cleanupDir envCleanup "C:\\Windows\\Temp" (envCleanupFs, [])).2 = [] :=
  ⟨cleanup_partial_failures.1 envCleanup (envCleanupFs, []),
   (cleanup_partial_failures.2.1 envCleanup "T" ["a", "b", "c"] (envCleanupFs, [])).trans
     (by decide),
   (cleanup_partial_failures.2.2.1 envCleanup "T" ["a", "b", "c"] (envCleanupFs, [])).trans
     (by decide),
   by rw [cleanup_partial_failures.2.2.2 envCleanup "C:\\Windows\\Temp" (envCleanupFs, [])
       "EPERM" rfl]⟩

/-- C10 (confirmed).  Whenever the cleanup task runs and the enumeration of
the platform temp directory succeeds, the set of paths it attempts to
force-remove contains the current run's own log file: the log file lives
directly in that directory (created at the latest by the sweep's own
Cleaning folder log call) and the loop attempts removal of every enumerated
entry, exempting nothing. -/
theorem cleanup_attempts_log_file (env : CleanupEnv) (st : SweepState)
    (h : env.readdirFail env.tmpdir = none) :
    logFilePair env ∈ (runTempFileCleanup env st).2.1 := by
  unfold runTempFileCleanup
  apply List.mem_append_left
  unfold cleanupDir
  rw [h]
  dsimp only
  have hmem : logFilePair env ∈
      (writeLogFs env st ("Cleaning folder: " ++ env.tmpdir) .INFO).1 := by
    unfold writeLogFs
    dsimp only
    split
    · next hin => exact hin
    · exact List.mem_cons_self _ _
  refine List.mem_map.mpr ⟨env.logName, List.mem_map.mpr ⟨(env.tmpdir, env.logName), ?_, rfl⟩, rfl⟩
  exact List.mem_filter.mpr ⟨hmem, by simp⟩

/-- Witness for C10: in the concrete cleanup environment the attempted
removals of the run include the active log file's path. -/
theorem cleanup_attempts_log_file_witness :
    logFilePair envCleanup ∈ (runTempFileCleanup envCleanup (envCleanupFs, [])).2.1 :=
  cleanup_attempts_log_file envCleanup (envCleanupFs, []) rfl

/-- No level's bracketed text contains a closing bracket or a newline. -/
theorem levelStr_chars (lvl : LogLevel) :
    ∀ c ∈ lvl.str.toList, c ≠ ']' ∧ c ≠ '\n' := by
  cases lvl <;> decide

theorem parseLevel_levelStr (lvl : LogLevel) : parseLevel lvl.str = some lvl := by
  cases lvl <;> rfl

/-- The characters of a log entry without its terminator. -/
theorem logLine_toList (ts : String) (lvl : LogLevel) (msg : String) :
    (logLine ts lvl msg "").toList =
      ts.toList ++ ' ' :: '[' :: (lvl.str.toList ++ ']' :: ' ' :: msg.toList) := by
  show (ts ++ " [" ++ lvl.str ++ "] " ++ msg ++ "").data = _
  simp [String.data_append]

/-- C8 (corrected).  For every entry whose message contains no newline (and
whose ISO-8601 timestamp, as always, contains no space and no newline), the
written text is the one-line format timestamp, bracketed level, message, and
parsing that line back recovers exactly the same timestamp, level and
message.  Entries whose message embeds a newline — which the program does
write, see the counterexample — span several lines instead. -/
theorem log_entry_roundtrip (ts msg : String) (lvl : LogLevel)
    (hts : ∀ c ∈ ts.toList, c ≠ ' ' ∧ c ≠ '\n')
    (hmsg : ∀ c ∈ msg.toList, c ≠ '\n') :
    parseLogLine (logLine ts lvl msg "") = some (ts, lvl.str, msg) ∧
    parseLevel lvl.str = some lvl ∧
    (∀ c ∈ (logLine ts lvl msg "").toList, c ≠ '\n') := by
  have hts1 : ∀ c ∈ ts.toList, (fun c => decide (c ≠ ' ')) c = true := by
    intro c hc; simpa using (hts c hc).1
  have hlvl1 : ∀ c ∈ lvl.str.toList, (fun c => decide (c ≠ ']')) c = true := by
    intro c hc; simpa using (levelStr_chars lvl c hc).1
  refine ⟨?_, parseLevel_levelStr lvl, ?_⟩
  · unfold parseLogLine parseLogChars
    rw [logLine_toList,
      dropWhile_append_eq _ _ _ _ hts1 (by decide),
      takeWhile_append_eq _ _ _ _ hts1 (by decide)]
    dsimp only
    rw [if_pos ⟨rfl, rfl⟩,
      dropWhile_append_eq _ _ _ _ hlvl1 (by decide),
      takeWhile_append_eq _ _ _ _ hlvl1 (by decide)]
    dsimp only
    rw [if_pos ⟨rfl, rfl⟩]
    rfl
  · intro c hc
    rw [logLine_toList] at hc
    rcases List.mem_append.mp hc with h | h
    · exact (hts c h).2
    · rcases List.mem_cons.mp h with rfl | h
      · decide
      rcases List.mem_cons.mp h with rfl | h
      · decide
      rcases List.mem_append.mp h with h | h
      · exact (levelStr_chars lvl c h).2
      rcases List.mem_cons.mp h with rfl | h
      · decide
      rcases List.mem_cons.mp h with rfl | h
      · decide
      exact hmsg c h

/-- Witness for C8's theorem: a concrete entry the program writes (the gate's
INFO line) round-trips exactly. -/
theorem log_entry_roundtrip_witness :
    parseLogLine (logLine "2026-01-01T00:00:00.000Z" .INFO "Running as Administrator: OK" "") =
      some ("2026-01-01T00:00:00.000Z", "INFO", "Running as Administrator: OK") ∧
    parseLevel "INFO" = some LogLevel.INFO :=
  ⟨(log_entry_roundtrip "2026-01-01T00:00:00.000Z" "Running as Administrator: OK" .INFO
      (by decide) (by decide)).1,
   (log_entry_roundtrip "2026-01-01T00:00:00.000Z" "Running as Administrator: OK" .INFO
      (by decide) (by decide)).2.1⟩

/-- The message of the failure result of the invoker for a command that
exited 1 with stderr text — the error the DISM task would throw. -/
def dismErrMessage : String :=
  match runCommand (.exited (some 1) "" "Access is denied.") with
  | .error e => e
  | .ok _ => ""

/-- The message of the one ERROR entry runTask logs for that failed task:
exactly what the program hands to writeLog. -/
def dismFailureLogMessage : String :=
  match runTask (.ok ()) "Checking DISM Health" (.thrown dismErrMessage) with
  | .ok (_, logs, _) => (logs.headD ⟨"", .INFO⟩).message
  | .error _ => ""

/-- C8 counterexample.  The program does log messages containing embedded
newlines (every command-failure ERROR entry does), and such an entry does not
occupy one line of the log file: written with its terminator it splits into
three pieces instead of two (entry line plus terminator), and parsing the
first physical line back recovers a truncated message, not the message the
logger was given. -/
theorem multiline_entry_breaks_roundtrip :
    (splitLines (logLine "2026-01-01T00:00:00.000Z" .ERROR dismFailureLogMessage "\n")).length
        = 3 ∧
    parseLogLine ((splitLines
        (logLine "2026-01-01T00:00:00.000Z" .ERROR dismFailureLogMessage "\n")).headD "") =
      some ("2026-01-01T00:00:00.000Z", "ERROR",
        "Checking DISM Health failed: Command failed with exit code 1") ∧
    "Checking DISM Health failed: Command failed with exit code 1" ≠ dismFailureLogMessage := by
  decide

end SystemCheck
